import Mathlib

/-!
Verification of the local-directory-to-remote-index synchronization engine
(the document watcher of `watcher.py` / `vs.py`): fingerprint store,
staging, debounce scheduler, upload/replace/delete handlers.

The Python modules are embedded shallowly: every handler becomes a pure
Lean function from an explicit environment (the outcomes of filesystem
probes and remote calls) and the in-memory store to the updated store plus
a trace of the side effects it performed, in order.  The SHA-256 content
hash is abstracted as an arbitrary function `hash : String → String` of
the file content read at hashing time, since the code only ever compares
hashes for equality.
-/

namespace Watcher

/-- A filesystem path, kept in the decomposition the code actually uses:
directory part, `Path.stem` and `Path.suffix` (the suffix includes the
leading dot, as in `pathlib`).  The full textual path is
`dir ++ "/" ++ stem ++ suffix`. -/
structure FsPath where
  dir : String
  stem : String
  suffix : String
deriving DecidableEq, Repr

/-- The full textual form of a path. -/
def FsPath.full (p : FsPath) : String :=
  p.dir ++ "/" ++ p.stem ++ p.suffix

/-- Constant `ALLOW_EXTS` from the source: the extension allow-list. -/
def ALLOW_EXTS : List String := [".pdf", ".docx", ".pptx", ".xlsx", ".txt", ".md"]

/-- Lock-file name beginnings (`("~$",)` in the source). -/
def LOCK_START : List String := ["~$"]

/-- Temporary/lock extensions (`(".tmp", ".part", ".lock")` in the source). -/
def LOCK_EXT : List String := [".tmp", ".part", ".lock"]

/-- Constant `ONLY_MOVE_CREATE` from the source (both modules set it to `True`). -/
def ONLY_MOVE_CREATE : Bool := true

/-- Python's `str.lower()` on the character data (the paths involved are
ASCII, where `Char.toLower` agrees with it). -/
def strLower (s : String) : String :=
  ⟨s.data.map Char.toLower⟩

/-- Python's `str.startswith(q)` on the character data. -/
def strStarts (s q : String) : Bool :=
  s.data.take q.data.length == q.data

/-- Function `is_lock_like`: the file name starts with an editor lock marker or the
lowercased extension is a temporary/lock extension. -/
def is_lock_like (p : FsPath) : Bool :=
  LOCK_START.any (fun q => strStarts (p.stem ++ p.suffix) q)
    || LOCK_EXT.contains (strLower p.suffix)

/-- The allow-list test `path.suffix.lower() in ALLOW_EXTS`. -/
def allowedExt (p : FsPath) : Bool :=
  ALLOW_EXTS.contains (strLower p.suffix)

/-- Function `file_key`: the canonical identity key, `str(p.resolve()).lower()`.
Directories are taken as already resolved. -/
def file_key (p : FsPath) : String :=
  strLower p.full

/-- One record of the fingerprint store:
`{"file_id": ..., "hash": ..., "name": ...}`. -/
structure FileMeta where
  file_id : String
  hash : String
  name : String
deriving DecidableEq, Repr

/-- The persisted store `{"vector_store_id": ..., "files": {...}}`; the
`files` dict is an association list keyed by `file_key`. -/
structure VsState where
  vector_store_id : Option String
  files : List (String × FileMeta)
deriving DecidableEq, Repr

/-- Operation `state["files"].get(key)`. -/
def getFile (files : List (String × FileMeta)) (k : String) : Option FileMeta :=
  (files.find? (fun kv => kv.1 == k)).map (·.2)

/-- Operation `state["files"].pop(key, None)` (the resulting dict). -/
def popFile (files : List (String × FileMeta)) (k : String) : List (String × FileMeta) :=
  files.filter (fun kv => !(kv.1 == k))

/-- Operation `state["files"][key] = meta` (replace any record under the key). -/
def setFile (files : List (String × FileMeta)) (k : String) (m : FileMeta) :
    List (String × FileMeta) :=
  (k, m) :: popFile files k

/-- The staged path produced by `safe_copy_to_staging`:
`STAGING_DIR / f"{src.stem}__staging{src.suffix}"`. -/
def stagedPath (src : FsPath) : FsPath :=
  ⟨".staging", src.stem ++ "__staging", src.suffix⟩

/-- The staged destination as the textual path actually created on disk. -/
def stagedName (src : FsPath) : String :=
  ".staging/" ++ src.stem ++ "__staging" ++ src.suffix

/-- One observable side effect of a handler, in program order:
local file reads/copies, the remote calls of the `client`, store flushes
(`save_state`, carrying the state written out) and reschedules
(`schedule_upload`).  Remote calls carry the outcome of the attempt. -/
inductive Eff where
  | hashRead (p : FsPath)
  | stage (src dst : FsPath)
  | createObj (ok : Bool)
  | attach (fid : String) (ok : Bool)
  | detachDelete (fid : String) (ok : Bool)
  | unlink (dst : FsPath)
  | flush (st : VsState)
  | reschedule (p : FsPath)
  | writeVsId (vsid : String)
deriving DecidableEq, Repr

/-- The environment of one `upload_and_link` run: outcomes of the
filesystem probes and remote calls it may perform. -/
structure UploadEnv where
  pathExists : Bool
  stable1 : Bool
  stable2 : Bool
  copyOk : Bool
  contentAtHash : String
  createOk : Bool
  newFileId : String
  attachOk : Bool
  oldDeleteOk : Bool
deriving DecidableEq, Repr

/-- Handler `upload_and_link(path)` (identical in both modules): guard on
existence, allow-list and lock pattern; two stability probes (the second
only after the first fails) with a reschedule if both fail; hash the file;
skip if the store's record has the same hash; stage (rescheduling if the
copy retries are exhausted); upload and attach the new object; then detach
and delete the old object if one was recorded; update the record and flush;
finally unlink the staged copy.  Returns the updated store and the trace. -/
def upload_and_link (hash : String → String) (env : UploadEnv)
    (st : VsState) (path : FsPath) : VsState × List Eff :=
  if !env.pathExists then (st, [])
  else if !allowedExt path || is_lock_like path then (st, [])
  else if !env.stable1 && !env.stable2 then (st, [.reschedule path])
  else
    let key := file_key path
    let new_hash := hash env.contentAtHash
    let old := getFile st.files key
    if old.map (·.hash) == some new_hash then (st, [.hashRead path])
    else if !env.copyOk then (st, [.hashRead path, .reschedule path])
    else
      let dst := stagedPath path
      if !env.createOk then
        (st, [.hashRead path, .stage path dst, .createObj false, .unlink dst])
      else if !env.attachOk then
        (st, [.hashRead path, .stage path dst, .createObj true,
              .attach env.newFileId false, .unlink dst])
      else
        let meta : FileMeta := ⟨env.newFileId, new_hash, path.stem ++ path.suffix⟩
        let st' : VsState := { st with files := setFile st.files key meta }
        match old with
        | some m =>
            (st', [.hashRead path, .stage path dst, .createObj true,
                   .attach env.newFileId true,
                   .detachDelete m.file_id env.oldDeleteOk,
                   .flush st', .unlink dst])
        | none =>
            (st', [.hashRead path, .stage path dst, .createObj true,
                   .attach env.newFileId true, .flush st', .unlink dst])

/-- Handler `remove_from_vector_store(path)`: guard on allow-list and lock
pattern; no record means no-op; otherwise attempt the remote delete (its
failure is caught and only logged), pop the record and flush. -/
def remove_from_vector_store (deleteOk : Bool) (st : VsState) (path : FsPath) :
    VsState × List Eff :=
  if !allowedExt path || is_lock_like path then (st, [])
  else
    match getFile st.files (file_key path) with
    | none => (st, [])
    | some meta =>
        let st' : VsState := { st with files := popFile st.files (file_key path) }
        (st', [.detachDelete meta.file_id deleteOk, .flush st'])

/-- Startup step `ensure_vector_store()`: reuse the id from `VS_ID_FILE` when that file
exists (recording it in the in-memory state, without a flush); otherwise
create a new vector store, write the id file, record the id and flush.
`vsIdFileContent` is the stripped content of `VS_ID_FILE` when it exists. -/
def ensure_vector_store (vsIdFileContent : Option String) (newVsid : String)
    (st : VsState) : String × VsState × List Eff :=
  match vsIdFileContent with
  | some vsid => (vsid, { st with vector_store_id := some vsid }, [])
  | none =>
      let st' : VsState := { st with vector_store_id := some newVsid }
      (newVsid, st', [.writeVsId newVsid, .flush st'])

/-- The map of pending debounce timers `_timers`, as an association list
`key ↦ the path the armed timer will pass to upload_and_link`. -/
abbrev TimerMap := List (String × FsPath)

/-- Scheduler entry `schedule_upload(path)`: cancel any pending timer under the path's
key, then arm a new timer carrying `path`. -/
def schedule_upload (tm : TimerMap) (path : FsPath) : TimerMap :=
  let key := file_key path
  (key, path) :: List.filter (fun kv => !(kv.1 == key)) tm

/-- Number of live timers held for a key. -/
def countKey (tm : TimerMap) (k : String) : Nat :=
  (List.filter (fun kv => kv.1 == k) tm).length

/-- The action executions produced for a key when its pending timers fire:
each live timer runs `upload_and_link` once with its recorded argument. -/
def fireKey (tm : TimerMap) (k : String) : List FsPath :=
  (List.filter (fun kv => kv.1 == k) tm).map (·.2)

/-- A raw watchdog event as the handlers see it. -/
structure FsEvent where
  isDir : Bool
  srcPath : FsPath
  destPath : FsPath
deriving DecidableEq, Repr

/-- Handler `DocEventHandler.on_modified` of `watcher.py`: schedules an upload for
every qualifying non-directory modified event; the module's
`ONLY_MOVE_CREATE` flag is not consulted. -/
def watcher_on_modified (ev : FsEvent) (tm : TimerMap) : TimerMap :=
  if ev.isDir then tm
  else if allowedExt ev.srcPath && !is_lock_like ev.srcPath then
    schedule_upload tm ev.srcPath
  else tm

/-- Handler `DocEventHandler.on_modified` of `vs.py`: returns immediately when
`only_move_create` is set, otherwise behaves like the `watcher.py`
handler. -/
def vs_on_modified (only_move_create : Bool) (ev : FsEvent) (tm : TimerMap) :
    TimerMap :=
  if only_move_create then tm
  else watcher_on_modified ev tm

/-- Number of store records held under a key. -/
def recordCount (st : VsState) (k : String) : Nat :=
  (st.files.filter (fun kv => kv.1 == k)).length

/-- Whether an effect is a `files.create` remote call. -/
def isCreate (e : Eff) : Bool :=
  match e with
  | .createObj _ => true
  | _ => false

/-- Whether an effect is any remote call of the sync client. -/
def isRemote (e : Eff) : Bool :=
  match e with
  | .createObj _ => true
  | .attach _ _ => true
  | .detachDelete _ _ => true
  | _ => false

/-- Whether an effect is a store flush (`save_state`). -/
def isFlush (e : Eff) : Bool :=
  match e with
  | .flush _ => true
  | _ => false

lemma getFile_setFile_self (fs : List (String × FileMeta)) (k : String) (m : FileMeta) :
    getFile (setFile fs k m) k = some m := by
  simp [getFile, setFile, List.find?]

lemma filter_popFile (fs : List (String × FileMeta)) (k : String) :
    (popFile fs k).filter (fun kv => kv.1 == k) = [] := by
  simp [popFile, List.filter_filter]

/-- Shape of a successful first upload of an untracked path. -/
lemma upload_success_new (hash : String → String) (env : UploadEnv) (st : VsState)
    (path : FsPath)
    (hex : env.pathExists = true) (hal : allowedExt path = true)
    (hlk : is_lock_like path = false) (hst : (env.stable1 || env.stable2) = true)
    (hc : env.copyOk = true) (hcr : env.createOk = true) (ha : env.attachOk = true)
    (hget : getFile st.files (file_key path) = none) :
    upload_and_link hash env st path =
      (⟨st.vector_store_id, setFile st.files (file_key path)
          ⟨env.newFileId, hash env.contentAtHash, path.stem ++ path.suffix⟩⟩,
       [.hashRead path, .stage path (stagedPath path), .createObj true,
        .attach env.newFileId true,
        .flush ⟨st.vector_store_id, setFile st.files (file_key path)
          ⟨env.newFileId, hash env.contentAtHash, path.stem ++ path.suffix⟩⟩,
        .unlink (stagedPath path)]) := by
  rcases Bool.or_eq_true_iff.mp hst with h1 | h1 <;>
    simp [upload_and_link, hex, hal, hlk, h1, hc, hcr, ha, hget]

/-- Shape of a skipped run: the path is tracked and its fingerprint is
unchanged. -/
lemma upload_skip (hash : String → String) (env : UploadEnv) (st : VsState)
    (path : FsPath) (m : FileMeta)
    (hex : env.pathExists = true) (hal : allowedExt path = true)
    (hlk : is_lock_like path = false) (hst : (env.stable1 || env.stable2) = true)
    (hget : getFile st.files (file_key path) = some m)
    (hm : m.hash = hash env.contentAtHash) :
    upload_and_link hash env st path = (st, [.hashRead path]) := by
  rcases Bool.or_eq_true_iff.mp hst with h1 | h1 <;>
    simp [upload_and_link, hex, hal, hlk, h1, hget, hm]

/-- Exhaustive case analysis of one `upload_and_link` run: the result is
one of the eight exit shapes of the handler. -/
lemma upload_cases (hash : String → String) (env : UploadEnv) (st : VsState)
    (path : FsPath) :
    upload_and_link hash env st path = (st, [])
    ∨ upload_and_link hash env st path = (st, [.reschedule path])
    ∨ upload_and_link hash env st path = (st, [.hashRead path])
    ∨ upload_and_link hash env st path = (st, [.hashRead path, .reschedule path])
    ∨ upload_and_link hash env st path
        = (st, [.hashRead path, .stage path (stagedPath path), .createObj false,
                .unlink (stagedPath path)])
    ∨ upload_and_link hash env st path
        = (st, [.hashRead path, .stage path (stagedPath path), .createObj true,
                .attach env.newFileId false, .unlink (stagedPath path)])
    ∨ (env.createOk = true ∧ env.attachOk = true
        ∧ getFile st.files (file_key path) = none
        ∧ ∃ st', upload_and_link hash env st path
            = (st', [.hashRead path, .stage path (stagedPath path), .createObj true,
                     .attach env.newFileId true, .flush st', .unlink (stagedPath path)]))
    ∨ (env.createOk = true ∧ env.attachOk = true
        ∧ ∃ m, getFile st.files (file_key path) = some m
        ∧ ∃ st', upload_and_link hash env st path
            = (st', [.hashRead path, .stage path (stagedPath path), .createObj true,
                     .attach env.newFileId true,
                     .detachDelete m.file_id env.oldDeleteOk,
                     .flush st', .unlink (stagedPath path)])) := by
  by_cases hpe : env.pathExists = true
  · by_cases hq : (!allowedExt path || is_lock_like path) = true
    · simp [upload_and_link, hpe, hq]
    · by_cases hs : (!env.stable1 && !env.stable2) = true
      · simp [upload_and_link, hpe, hq, hs]
      · rcases hold : getFile st.files (file_key path) with _ | m
        · by_cases hco : env.copyOk = true
          · by_cases hcr : env.createOk = true
            · by_cases hat : env.attachOk = true
              · refine Or.inr (Or.inr (Or.inr (Or.inr (Or.inr (Or.inr (Or.inl
                    ⟨hcr, hat, rfl,
                     ⟨st.vector_store_id, setFile st.files (file_key path)
                        ⟨env.newFileId, hash env.contentAtHash,
                         path.stem ++ path.suffix⟩⟩, ?_⟩))))))
                simp [upload_and_link, hpe, hq, hs, hold, hco, hcr, hat]
              · simp [upload_and_link, hpe, hq, hs, hold, hco, hcr, hat]
            · simp [upload_and_link, hpe, hq, hs, hold, hco, hcr]
          · simp [upload_and_link, hpe, hq, hs, hold, hco]
        · by_cases hsk : m.hash = hash env.contentAtHash
          · simp [upload_and_link, hpe, hq, hs, hold, hsk]
          · by_cases hco : env.copyOk = true
            · by_cases hcr : env.createOk = true
              · by_cases hat : env.attachOk = true
                · refine Or.inr (Or.inr (Or.inr (Or.inr (Or.inr (Or.inr (Or.inr
                      ⟨hcr, hat, m, rfl,
                       ⟨st.vector_store_id, setFile st.files (file_key path)
                          ⟨env.newFileId, hash env.contentAtHash,
                           path.stem ++ path.suffix⟩⟩, ?_⟩))))))
                  simp [upload_and_link, hpe, hq, hs, hold, hsk, hco, hcr, hat]
                · simp [upload_and_link, hpe, hq, hs, hold, hsk, hco, hcr, hat]
              · simp [upload_and_link, hpe, hq, hs, hold, hsk, hco, hcr]
            · simp [upload_and_link, hpe, hq, hs, hold, hsk, hco]
  · simp [upload_and_link, hpe]

-- Sample concrete inputs used by the witnesses below.

def hash0 : String → String := fun c => c ++ "#"

def p0 : FsPath := ⟨"/docs", "brief", ".pdf"⟩

def meta0 : FileMeta := ⟨"file_1", "abc#", "brief.pdf"⟩

def stRec : VsState := ⟨some "vs_1", [(file_key p0, meta0)]⟩

def st0 : VsState := ⟨some "vs_1", []⟩

def envOk : UploadEnv :=
  { pathExists := true, stable1 := true, stable2 := true, copyOk := true
    contentAtHash := "abc", createOk := true, newFileId := "file_2"
    attachOk := true, oldDeleteOk := true }

/-- Environment `envOk` after the tracked file's content changed to `"xyz"`. -/
def envChg : UploadEnv :=
  { envOk with contentAtHash := "xyz" }

/-- C1: when the newly computed fingerprint equals the fingerprint in the
store's record for the path, the handler performs no remote call and
leaves the store unchanged (its whole trace is the single hash read); and
a first successful upload followed by a second qualifying event on
unchanged content yields exactly one `files.create` call across both runs
and exactly one store record for the path. -/
theorem C1_unchanged_skip :
    (∀ (hash : String → String) (env : UploadEnv) (st : VsState) (path : FsPath)
        (m : FileMeta),
        env.pathExists = true →
        allowedExt path = true → is_lock_like path = false →
        (env.stable1 || env.stable2) = true →
        getFile st.files (file_key path) = some m →
        m.hash = hash env.contentAtHash →
        upload_and_link hash env st path = (st, [.hashRead path]))
  ∧ (∀ (hash : String → String) (env1 env2 : UploadEnv) (st : VsState) (path : FsPath),
        env1.pathExists = true → (env1.stable1 || env1.stable2) = true →
        env1.copyOk = true → env1.createOk = true → env1.attachOk = true →
        allowedExt path = true → is_lock_like path = false →
        getFile st.files (file_key path) = none →
        env2.pathExists = true → (env2.stable1 || env2.stable2) = true →
        hash env2.contentAtHash = hash env1.contentAtHash →
        (upload_and_link hash env2 (upload_and_link hash env1 st path).1 path).1
            = (upload_and_link hash env1 st path).1
        ∧ ((upload_and_link hash env1 st path).2
            ++ (upload_and_link hash env2 (upload_and_link hash env1 st path).1 path).2).countP
              isCreate = 1
        ∧ recordCount (upload_and_link hash env1 st path).1 (file_key path) = 1) := by
  constructor
  · intro hash env st path m hex hal hlk hst hget hm
    exact upload_skip hash env st path m hex hal hlk hst hget hm
  · intro hash env1 env2 st path h1e h1s h1c h1cr h1a hal hlk hget h2e h2s hh
    have hrun1 := upload_success_new hash env1 st path h1e hal hlk h1s h1c h1cr h1a hget
    have hget2 : getFile (upload_and_link hash env1 st path).1.files (file_key path)
        = some ⟨env1.newFileId, hash env1.contentAtHash, path.stem ++ path.suffix⟩ := by
      rw [hrun1]
      exact getFile_setFile_self ..
    have hrun2 : upload_and_link hash env2 (upload_and_link hash env1 st path).1 path
        = ((upload_and_link hash env1 st path).1, [.hashRead path]) :=
      upload_skip hash env2 _ path _ h2e hal hlk h2s hget2 hh.symm
    refine ⟨by rw [hrun2], ?_, ?_⟩
    · rw [hrun2, hrun1]
      simp [isCreate, List.countP_cons]
    · rw [hrun1]
      simp only [recordCount, setFile, List.filter_cons]
      simp [filter_popFile]

/-- Witness for C1 at concrete inputs. -/
theorem C1_unchanged_skip_witness :
    upload_and_link hash0 envOk stRec p0 = (stRec, [.hashRead p0])
    ∧ ((upload_and_link hash0 envOk st0 p0).2
        ++ (upload_and_link hash0 envOk (upload_and_link hash0 envOk st0 p0).1 p0).2).countP
          isCreate = 1 :=
  ⟨C1_unchanged_skip.1 hash0 envOk stRec p0 meta0 rfl (by decide) (by decide) rfl
      (by decide) (by decide),
   (C1_unchanged_skip.2 hash0 envOk envOk st0 p0 rfl rfl rfl rfl rfl (by decide)
      (by decide) (by decide) rfl rfl rfl).2.1⟩

/-- C2: whenever `upload_and_link` detaches/deletes a prior remote object,
the remote create and the attach of the new object both succeeded, the
deleted id is the one in the store's prior record for the path, and in the
trace the create and attach of the new object strictly precede the removal
of the old one. -/
theorem C2_new_before_old (hash : String → String) (env : UploadEnv)
    (st : VsState) (path : FsPath) (f : String) (ok : Bool)
    (h : Eff.detachDelete f ok ∈ (upload_and_link hash env st path).2) :
    env.createOk = true ∧ env.attachOk = true
    ∧ ∃ m st', getFile st.files (file_key path) = some m ∧ f = m.file_id
        ∧ (upload_and_link hash env st path).2
          = [.hashRead path, .stage path (stagedPath path), .createObj true,
             .attach env.newFileId true]
            ++ [.detachDelete m.file_id env.oldDeleteOk, .flush st',
                .unlink (stagedPath path)] := by
  rcases upload_cases hash env st path with
    h1 | h1 | h1 | h1 | h1 | h1 | ⟨_, _, _, st', h1⟩ | ⟨hcr, hat, m, hget, st', h1⟩ <;>
    rw [h1] at h
  · simp at h
  · simp at h
  · simp at h
  · simp at h
  · simp at h
  · simp at h
  · simp at h
  · simp at h
    exact ⟨hcr, hat, m, st', hget, h.1, by rw [h1]; rfl⟩

/-- Witness for C2 at concrete inputs: a content change to a tracked file. -/
theorem C2_new_before_old_witness :
    envChg.createOk = true ∧ envChg.attachOk = true
    ∧ ∃ m st', getFile stRec.files (file_key p0) = some m ∧ "file_1" = m.file_id
        ∧ (upload_and_link hash0 envChg stRec p0).2
          = [.hashRead p0, .stage p0 (stagedPath p0), .createObj true,
             .attach envChg.newFileId true]
            ++ [.detachDelete m.file_id envChg.oldDeleteOk, .flush st',
                .unlink (stagedPath p0)] :=
  C2_new_before_old hash0 envChg stRec p0 "file_1" true (by decide)

/-- C3 (amended): whenever `upload_and_link` stages the file, the trace
starts with the fingerprint read of the ORIGINAL watched file, immediately
followed by the staging; no fingerprint read happens afterwards, so the
staged copy is never the input of the recorded fingerprint. -/
theorem C3_hash_original_precedes_staging (hash : String → String)
    (env : UploadEnv) (st : VsState) (path : FsPath)
    (h : Eff.stage path (stagedPath path) ∈ (upload_and_link hash env st path).2) :
    ∃ l2, (upload_and_link hash env st path).2
        = .hashRead path :: .stage path (stagedPath path) :: l2
      ∧ ∀ q, Eff.hashRead q ∉ l2 := by
  rcases upload_cases hash env st path with
    h1 | h1 | h1 | h1 | h1 | h1 | ⟨_, _, _, st', h1⟩ | ⟨_, _, m, _, st', h1⟩ <;>
    rw [h1] at h
  · simp at h
  · simp at h
  · simp at h
  · simp at h
  · exact ⟨_, by rw [h1], by intro q; simp⟩
  · exact ⟨_, by rw [h1], by intro q; simp⟩
  · exact ⟨_, by rw [h1], by intro q; simp⟩
  · exact ⟨_, by rw [h1], by intro q; simp⟩

/-- Witness for C3's amended statement at concrete inputs. -/
theorem C3_hash_original_precedes_staging_witness :
    ∃ l2, (upload_and_link hash0 envOk st0 p0).2
        = .hashRead p0 :: .stage p0 (stagedPath p0) :: l2
      ∧ ∀ q, Eff.hashRead q ∉ l2 :=
  C3_hash_original_precedes_staging hash0 envOk st0 p0 (by decide)

/-- Counterexample to C3 as stated: in a concrete successful first upload
the file IS staged, yet no decomposition of the trace has the staging
followed by a fingerprint read of the staged copy — the fingerprint is
taken before staging, from the original. -/
theorem C3_counterexample :
    Eff.stage p0 (stagedPath p0) ∈ (upload_and_link hash0 envOk st0 p0).2
    ∧ ¬ (∃ l1 l2, (upload_and_link hash0 envOk st0 p0).2
          = l1 ++ .stage p0 (stagedPath p0) :: l2
        ∧ Eff.hashRead (stagedPath p0) ∈ l2) := by
  refine ⟨by decide, ?_⟩
  rintro ⟨l1, l2, heq, hmem⟩
  have hin : Eff.hashRead (stagedPath p0) ∈ (upload_and_link hash0 envOk st0 p0).2 := by
    rw [heq]
    exact List.mem_append_right _ (List.mem_cons_of_mem _ hmem)
  revert hin
  decide

/-- C8: whenever `upload_and_link` stages the file, the very last effect
of the run is the unlink of that staged copy — on the success path, on
remote-call failure, and (vacuously, no staged copy being created) on
copy-retry exhaustion: no staged file outlives the attempt. -/
theorem C8_staged_copy_released (hash : String → String) (env : UploadEnv)
    (st : VsState) (path : FsPath)
    (h : Eff.stage path (stagedPath path) ∈ (upload_and_link hash env st path).2) :
    (upload_and_link hash env st path).2.getLast?
      = some (.unlink (stagedPath path)) := by
  rcases upload_cases hash env st path with
    h1 | h1 | h1 | h1 | h1 | h1 | ⟨_, _, _, st', h1⟩ | ⟨_, _, m, _, st', h1⟩ <;>
    rw [h1] at h <;> rw [h1]
  · simp at h
  · simp at h
  · simp at h
  · simp at h
  · rfl
  · rfl
  · rfl
  · rfl

/-- Witness for C8 at concrete inputs (a run whose remote attach fails). -/
theorem C8_staged_copy_released_witness :
    (upload_and_link hash0 { envOk with attachOk := false } st0 p0).2.getLast?
      = some (.unlink (stagedPath p0)) :=
  C8_staged_copy_released hash0 { envOk with attachOk := false } st0 p0 (by decide)

lemma countKey_schedule_other (tm : TimerMap) (p : FsPath) (k : String)
    (hk : k ≠ file_key p) :
    countKey (schedule_upload tm p) k = countKey tm k := by
  have hb : (file_key p == k) = false := by
    simp only [beq_eq_false_iff_ne, ne_eq]
    exact fun h => hk h.symm
  simp only [schedule_upload, countKey, List.filter_cons, hb, Bool.false_eq_true,
    if_false, List.filter_filter]
  congr 1
  apply List.filter_congr
  intro kv _
  by_cases h : kv.1 = k
  · simp [h, hb, hk]
  · simp [h]

lemma fire_burst (k : String) :
    ∀ (ps : List FsPath) (p : FsPath) (tm : TimerMap),
      (∀ q ∈ p :: ps, file_key q = k) →
      fireKey ((p :: ps).foldl schedule_upload tm) k
        = [(p :: ps).getLast (List.cons_ne_nil p ps)] := by
  intro ps
  induction ps with
  | nil =>
      intro p tm hk
      have hkp := hk p (List.mem_cons_self p [])
      simp [fireKey, schedule_upload, hkp, List.filter_filter]
  | cons q ps' ih =>
      intro p tm hk
      have h1 : (p :: q :: ps').foldl schedule_upload tm
          = (q :: ps').foldl schedule_upload (schedule_upload tm p) := rfl
      rw [h1, ih q (schedule_upload tm p) (fun r hr => hk r (List.mem_cons_of_mem p hr))]
      rw [List.getLast_cons (List.cons_ne_nil q ps')]

/-- C4: a schedule call leaves exactly one live timer under the path's
key (any prior one is cancelled) and leaves every other key's timers
untouched; and a burst of N ≥ 1 schedule calls sharing a key, followed by
the debounce expiry, fires exactly one action execution, carrying the
arguments of the last call of the burst. -/
theorem C4_debounce_last_wins :
    (∀ (tm : TimerMap) (p : FsPath),
        countKey (schedule_upload tm p) (file_key p) = 1)
    ∧ (∀ (tm : TimerMap) (p : FsPath) (k : String), k ≠ file_key p →
        countKey (schedule_upload tm p) k = countKey tm k)
    ∧ (∀ (ps : List FsPath) (p : FsPath) (tm : TimerMap) (k : String),
        (∀ q ∈ p :: ps, file_key q = k) →
        fireKey ((p :: ps).foldl schedule_upload tm) k
          = [(p :: ps).getLast (List.cons_ne_nil p ps)]) := by
  refine ⟨?_, ?_, ?_⟩
  · intro tm p
    simp [schedule_upload, countKey, List.filter_filter]
  · intro tm p k hk
    exact countKey_schedule_other tm p k hk
  · intro ps p tm k hk
    exact fire_burst k ps p tm hk

/-- A case variant of `p0` resolving to the same canonical key. -/
def p0b : FsPath := ⟨"/Docs", "Brief", ".PDF"⟩

/-- Witness for C4 at concrete inputs: a two-event burst on one key. -/
theorem C4_debounce_last_wins_witness :
    countKey (schedule_upload [] p0) (file_key p0) = 1
    ∧ countKey (schedule_upload [] p0) "other" = countKey ([] : TimerMap) "other"
    ∧ fireKey ([p0, p0b].foldl schedule_upload ([] : TimerMap)) (file_key p0)
        = [p0b] := by
  refine ⟨C4_debounce_last_wins.1 [] p0,
          C4_debounce_last_wins.2.1 [] p0 "other" (by decide), ?_⟩
  have h := C4_debounce_last_wins.2.2 [p0b] p0 [] (file_key p0) (by decide)
  simpa using h

lemma getFile_popFile (fs : List (String × FileMeta)) (k : String) :
    getFile (popFile fs k) k = none := by
  simp only [getFile, popFile, Option.map_eq_none', List.find?_eq_none,
    List.mem_filter]
  intro kv hkv
  simp_all

/-- C5 (amended): every mutation of the files map performed by
`upload_and_link` or `remove_from_vector_store` is followed synchronously,
before the handler returns, by a flush carrying the mutated state; the
index-identity field is flushed when a fresh index is created, but the
reuse branch of `ensure_vector_store` records the identity in memory and
returns without a flush. -/
theorem C5_flush_follows_mutation :
    (∀ (hash : String → String) (env : UploadEnv) (st : VsState) (path : FsPath),
        (upload_and_link hash env st path).1 ≠ st →
        Eff.flush (upload_and_link hash env st path).1
          ∈ (upload_and_link hash env st path).2)
    ∧ (∀ (ok : Bool) (st : VsState) (path : FsPath),
        (remove_from_vector_store ok st path).1 ≠ st →
        Eff.flush (remove_from_vector_store ok st path).1
          ∈ (remove_from_vector_store ok st path).2)
    ∧ (∀ (n : String) (st : VsState),
        ensure_vector_store none n st
          = (n, ⟨some n, st.files⟩, [.writeVsId n, .flush ⟨some n, st.files⟩]))
    ∧ (∀ (v n : String) (st : VsState),
        ensure_vector_store (some v) n st = (v, ⟨some v, st.files⟩, [])) := by
  refine ⟨?_, ?_, fun n st => rfl, fun v n st => rfl⟩
  · intro hash env st path hne
    rcases upload_cases hash env st path with
      h1 | h1 | h1 | h1 | h1 | h1 | ⟨_, _, _, st', h1⟩ | ⟨_, _, m, _, st', h1⟩ <;>
      rw [h1] at hne ⊢ <;> simp_all
  · intro ok st path hne
    by_cases hq : (!allowedExt path || is_lock_like path) = true
    · rw [remove_from_vector_store] at hne ⊢
      simp [hq] at hne
    · rcases hold : getFile st.files (file_key path) with _ | m <;>
        rw [remove_from_vector_store] at hne ⊢ <;> simp [hq, hold] at hne ⊢

/-- Witness for C5's amended statement at concrete inputs. -/
theorem C5_flush_follows_mutation_witness :
    Eff.flush (upload_and_link hash0 envOk st0 p0).1
      ∈ (upload_and_link hash0 envOk st0 p0).2
    ∧ Eff.flush (remove_from_vector_store true stRec p0).1
      ∈ (remove_from_vector_store true stRec p0).2 :=
  ⟨C5_flush_follows_mutation.1 hash0 envOk st0 p0 (by decide),
   C5_flush_follows_mutation.2.1 true stRec p0 (by decide)⟩

/-- Counterexample to C5 as stated: the reuse branch of
`ensure_vector_store` mutates the store's index-identity field and
returns with no flush in its trace. -/
theorem C5_counterexample :
    (ensure_vector_store (some "vs_9") "vs_new" ⟨none, []⟩).2.1 ≠ (⟨none, []⟩ : VsState)
    ∧ ((ensure_vector_store (some "vs_9") "vs_new" ⟨none, []⟩).2.2.countP isFlush = 0) := by
  decide

/-- C6: on a qualifying deleted event, a path with no store record is a
no-op (no remote call, no store change, no flush), while a tracked path
has its remote object's removal attempted, its record removed from the
store, and the store flushed. -/
theorem C6_deleted_event (ok : Bool) (st : VsState) (path : FsPath)
    (hal : allowedExt path = true) (hlk : is_lock_like path = false) :
    (getFile st.files (file_key path) = none →
        remove_from_vector_store ok st path = (st, []))
    ∧ (∀ m, getFile st.files (file_key path) = some m →
        remove_from_vector_store ok st path
          = (⟨st.vector_store_id, popFile st.files (file_key path)⟩,
             [.detachDelete m.file_id ok,
              .flush ⟨st.vector_store_id, popFile st.files (file_key path)⟩])
        ∧ getFile (remove_from_vector_store ok st path).1.files (file_key path)
            = none) := by
  constructor
  · intro hget
    simp [remove_from_vector_store, hal, hlk, hget]
  · intro m hget
    refine ⟨by simp [remove_from_vector_store, hal, hlk, hget], ?_⟩
    simp only [remove_from_vector_store, hal, hlk, hget]
    simp [getFile_popFile]

/-- Witness for C6 at concrete inputs. -/
theorem C6_deleted_event_witness :
    remove_from_vector_store true st0 p0 = (st0, [])
    ∧ remove_from_vector_store true stRec p0
        = (⟨stRec.vector_store_id, popFile stRec.files (file_key p0)⟩,
           [.detachDelete meta0.file_id true,
            .flush ⟨stRec.vector_store_id, popFile stRec.files (file_key p0)⟩]) :=
  ⟨(C6_deleted_event true st0 p0 (by decide) (by decide)).1 (by decide),
   ((C6_deleted_event true stRec p0 (by decide) (by decide)).2 meta0 (by decide)).1⟩

/-- C10: even when the remote detach/delete call fails, the qualifying
deleted event still removes the store record and flushes, so a remote
error never leaves a record behind for a removed file. -/
theorem C10_remote_failure_still_removes_record (st : VsState) (path : FsPath)
    (m : FileMeta) (hal : allowedExt path = true) (hlk : is_lock_like path = false)
    (hget : getFile st.files (file_key path) = some m) :
    (remove_from_vector_store false st path).1.files
        = popFile st.files (file_key path)
    ∧ getFile (remove_from_vector_store false st path).1.files (file_key path) = none
    ∧ Eff.detachDelete m.file_id false ∈ (remove_from_vector_store false st path).2
    ∧ Eff.flush (remove_from_vector_store false st path).1
        ∈ (remove_from_vector_store false st path).2 := by
  simp only [remove_from_vector_store, hal, hlk, hget]
  simp [getFile_popFile]

/-- Witness for C10 at concrete inputs. -/
theorem C10_remote_failure_still_removes_record_witness :
    getFile (remove_from_vector_store false stRec p0).1.files (file_key p0) = none
    ∧ Eff.detachDelete meta0.file_id false ∈ (remove_from_vector_store false stRec p0).2 :=
  ⟨(C10_remote_failure_still_removes_record stRec p0 meta0 (by decide) (by decide)
      (by decide)).2.1,
   (C10_remote_failure_still_removes_record stRec p0 meta0 (by decide) (by decide)
      (by decide)).2.2.1⟩

/-- A qualifying non-directory modified event on `p0`. -/
def ev0 : FsEvent := ⟨false, p0, p0⟩

/-- C7 (code bug exhibit): `ONLY_MOVE_CREATE` is set in both modules and
`vs.py`'s modified handler honors it — with the flag set it schedules
nothing for any event — but `watcher.py`'s modified handler never consults
the flag and schedules an upload for a qualifying modified event anyway. -/
theorem C7_watcher_ignores_flag :
    ONLY_MOVE_CREATE = true
    ∧ (∀ (ev : FsEvent) (tm : TimerMap), vs_on_modified true ev tm = tm)
    ∧ watcher_on_modified ev0 [] = [(file_key p0, p0)] := by
  refine ⟨rfl, fun ev tm => rfl, by decide⟩

/-- C9 (amended): the staged destination is derived from the source's base
name alone, so sources agreeing on stem and suffix collide even from
different directories, while sources sharing a suffix get distinct staged
destinations exactly when their stems differ. -/
theorem C9_staged_name_collision_free_per_basename :
    (∀ p q : FsPath, p.stem = q.stem → p.suffix = q.suffix →
        stagedName p = stagedName q)
    ∧ (∀ p q : FsPath, p.suffix = q.suffix → p.stem ≠ q.stem →
        stagedName p ≠ stagedName q) := by
  constructor
  · intro p q hs he
    simp [stagedName, hs, he]
  · intro p q he hs hcontra
    apply hs
    have hd := congrArg String.data hcontra
    simp only [stagedName, he, String.data_append, List.append_assoc] at hd
    have h1 := List.append_cancel_left hd
    have h2 := List.append_cancel_right h1
    cases hp : p.stem with
    | mk l1 =>
        cases hq : q.stem with
        | mk l2 =>
            rw [hp, hq] at h2
            exact congrArg String.mk (by simpa using h2)

/-- A second source path sharing `pA`'s directory but not its stem. -/
def pC : FsPath := ⟨"/docs/a", "summary", ".pdf"⟩

/-- Two distinct qualifying sources with equal base names in different
directories. -/
def pA : FsPath := ⟨"/docs/a", "report", ".pdf"⟩

def pB : FsPath := ⟨"/docs/b", "report", ".pdf"⟩

/-- Witness for C9's amended statement at concrete inputs. -/
theorem C9_staged_name_witness :
    stagedName pA = stagedName pB ∧ stagedName pA ≠ stagedName pC :=
  ⟨C9_staged_name_collision_free_per_basename.1 pA pB rfl rfl,
   C9_staged_name_collision_free_per_basename.2 pA pC rfl (by decide)⟩

/-- Counterexample to C9 as stated: two distinct tracked paths (distinct
canonical keys) in the watched tree whose staged destinations coincide. -/
theorem C9_counterexample :
    pA ≠ pB ∧ allowedExt pA = true ∧ allowedExt pB = true
    ∧ file_key pA ≠ file_key pB
    ∧ stagedName pA = stagedName pB := by
  decide

end Watcher
